import Mathlib

/-!
Shallow embedding of `phase1-wasm/src/phase1.rs` (contribution orchestration
and parallel dispatch for a powers-of-tau trusted-setup ceremony step).

Bytes are modelled as `Nat`, byte buffers as `List Nat`.  The external
collaborators (hash function, key generation, cryptographic transformation,
public-key serialization, selector tables, RNG construction, parameter
derivation) live in other crates; they are modelled as abstract injected
capabilities, so every theorem quantifies over their behaviour.  Rust panics
(`expect` / `unwrap`) are modelled as `Option.none` on the functions that can
abort.
-/

namespace Phase1Wasm

/-- Modelled from the spec: `setup_utils::UseCompression`, an external
two-valued compression policy flag. -/
inductive UseCompression where
  | Yes
  | No
deriving DecidableEq

/-- Modelled from the spec: `setup_utils::CheckForCorrectness`, the external
input-correctness-check policy; only the skip variant is exercised here. -/
inductive CheckForCorrectness where
  | No
  | Full
deriving DecidableEq

/-- Modelled from the spec: `phase1::ContributionMode`, full versus chunked
contribution. -/
inductive ContributionMode where
  | Full
  | Chunked
deriving DecidableEq

/-- Modelled from the spec: `phase1::helpers::CurveKind`, the closed curve
enumeration. -/
inductive CurveKind where
  | Bls12_377
  | BW6
deriving DecidableEq

/-- Modelled from the spec: `phase1::ProvingSystem`, the closed proving-system
enumeration. -/
inductive ProvingSystem where
  | Groth16
  | Marlin
deriving DecidableEq

/-- Modelled from the spec: the three byte-size fields of
`phase1::Phase1Parameters` that the orchestration reads. -/
structure Phase1Parameters where
  accumulator_size : Nat
  contribution_size : Nat
  public_key_size : Nat
deriving DecidableEq

/-- Constant `pub(crate) const COMPRESSED_INPUT: UseCompression = UseCompression::No;`. -/
def COMPRESSED_INPUT : UseCompression := UseCompression.No

/-- Constant `pub(crate) const COMPRESSED_OUTPUT: UseCompression = UseCompression::Yes;`. -/
def COMPRESSED_OUTPUT : UseCompression := UseCompression.Yes

/-- Constant `pub(crate) const CHECK_INPUT_CORRECTNESS: CheckForCorrectness = CheckForCorrectness::No;`. -/
def CHECK_INPUT_CORRECTNESS : CheckForCorrectness := CheckForCorrectness.No

/-- The `ContributionResponse` struct returned on success. -/
structure ContributionResponse where
  current_accumulator_hash : List Nat
  response : List Nat
  contribution_hash : List Nat
deriving DecidableEq

/-- Modelled from the spec: the external collaborators consumed by
`contribute_challenge` — `setup_utils::calculate_hash`,
`Phase1::key_generation`, `Phase1::computation` and `PublicKey::write`.
`computation` and `write` receive the response buffer and return the updated
buffer (the Rust functions mutate it in place through `&mut`); the key and
RNG types are opaque parameters. -/
structure Engine (Pub Priv Rng : Type) where
  calculate_hash : List Nat → List Nat
  key_generation : Rng → List Nat → Except String (Pub × Priv)
  computation : List Nat → List Nat → UseCompression → UseCompression →
    CheckForCorrectness → Priv → Phase1Parameters → Except String (List Nat)
  write : Pub → List Nat → UseCompression → Phase1Parameters →
    Except String (List Nat)

/-- The `expected_challenge_length` match at the head of
`contribute_challenge`. -/
def expected_challenge_length (parameters : Phase1Parameters) : Nat :=
  match COMPRESSED_INPUT with
  | UseCompression.Yes => parameters.contribution_size
  | UseCompression.No => parameters.accumulator_size

/-- The `required_output_length` match in `contribute_challenge`. -/
def required_output_length (parameters : Phase1Parameters) : Nat :=
  match COMPRESSED_OUTPUT with
  | UseCompression.Yes => parameters.contribution_size
  | UseCompression.No => parameters.accumulator_size + parameters.public_key_size

/-- The size-mismatch error message built by `contribute_challenge`. -/
def sizeMismatchError (expected actual : Nat) : String :=
  "The size of challenge file should be " ++ toString expected ++
    ", but it\x27s " ++ toString actual ++ ", so something isn\x27t right."

/-- The cyclic pre-fill loop:
`for i in 0..required_output_length { response.push(hash[i % hash.len()]); }`.
Out-of-range access (possible only for an empty digest) yields the default
byte `0` where Rust would abort. -/
def prefill (hash : List Nat) (n : Nat) : List Nat :=
  (List.range n).foldl
    (fun response i => response ++ [hash.getD (i % hash.length) 0]) []

/-- Steps 5–9 of `contribute_challenge`: key generation, transformation,
public-key serialization, final hash, response assembly.  `response` is the
buffer as it stands just before `Phase1::key_generation` is called. -/
def run_transformation {Pub Priv Rng : Type} (eng : Engine Pub Priv Rng)
    (challenge : List Nat) (current_accumulator_hash : List Nat)
    (response : List Nat) (parameters : Phase1Parameters) (rng : Rng) :
    Except String ContributionResponse :=
  match eng.key_generation rng current_accumulator_hash with
  | Except.error _ => Except.error "could not generate keypair"
  | Except.ok (public_key, private_key) =>
    match eng.computation challenge response COMPRESSED_INPUT COMPRESSED_OUTPUT
        CHECK_INPUT_CORRECTNESS private_key parameters with
    | Except.error _ => Except.error "must contribute with the key"
    | Except.ok response1 =>
      match eng.write public_key response1 COMPRESSED_OUTPUT parameters with
      | Except.error e => Except.error e
      | Except.ok response2 =>
        Except.ok
          { current_accumulator_hash := current_accumulator_hash
            response := response2
            contribution_hash := eng.calculate_hash response2 }

/-- The function `pub fn contribute_challenge<E>(challenge, parameters, rng)`. -/
def contribute_challenge {Pub Priv Rng : Type} (eng : Engine Pub Priv Rng)
    (challenge : List Nat) (parameters : Phase1Parameters) (rng : Rng) :
    Except String ContributionResponse :=
  if challenge.length ≠ expected_challenge_length parameters then
    Except.error
      (sizeMismatchError (expected_challenge_length parameters) challenge.length)
  else
    let current_accumulator_hash := eng.calculate_hash challenge
    run_transformation eng challenge current_accumulator_hash
      (prefill current_accumulator_hash (required_output_length parameters))
      parameters rng

/-- Modelled from the spec: the remaining external collaborators used by the
`Phase1WASM` entry points — selector tables (`curve_from_str`,
`proving_system_from_str`, returning `none` where the Rust `Result` is an
error and the caller crashes with `expect`), RNG constructors
(`get_rng`/`user_system_randomness` for system entropy,
`derive_rng_from_seed` for the deterministic seed-derived RNG), the parameter
deriver (`Phase1Parameters::new_full` / `::new_chunk`, indexed by the curve
that instantiates the Rust type parameter `E`), the per-curve engine, and the
rayon/worker pool construction (`pool_build n = none` models any failure of
`ThreadPoolBuilder::build` or `worker.run`, which the Rust code `unwrap`s). -/
structure WasmEnv (Pub Priv Rng : Type) where
  curve_from_str : String → Option CurveKind
  proving_system_from_str : String → Option ProvingSystem
  get_rng : List Nat → Rng
  user_system_randomness : List Nat
  derive_rng_from_seed : List Nat → Rng
  new_full : CurveKind → ProvingSystem → Nat → Nat → Phase1Parameters
  new_chunk : CurveKind → ContributionMode → Nat → Nat → ProvingSystem →
    Nat → Nat → Phase1Parameters
  engine : CurveKind → Engine Pub Priv Rng
  pool_build : Nat → Option Unit

/-- The function `pub fn get_parameters_full::<E>(proving_system, power,
batch_size)`; the Rust type parameter `E` becomes the explicit `ck`. -/
def get_parameters_full {Pub Priv Rng : Type} (env : WasmEnv Pub Priv Rng)
    (ck : CurveKind) (proving_system : ProvingSystem) (power batch_size : Nat) :
    Phase1Parameters :=
  env.new_full ck proving_system power batch_size

/-- The function `pub fn get_parameters_chunked::<E>(proving_system, power,
batch_size, chunk_index, chunk_size)`, calling
`Phase1Parameters::new_chunk(ContributionMode::Chunked, chunk_index,
chunk_size, proving_system, power, batch_size)`. -/
def get_parameters_chunked {Pub Priv Rng : Type} (env : WasmEnv Pub Priv Rng)
    (ck : CurveKind) (proving_system : ProvingSystem)
    (power batch_size chunk_index chunk_size : Nat) : Phase1Parameters :=
  env.new_chunk ck ContributionMode.Chunked chunk_index chunk_size
    proving_system power batch_size

/-- The entry point `Phase1WASM::contribute_full`.  The outer `Option` is the
abort channel:
`none` models the process crash of an `expect` on an unknown selector token,
never a returned `Err`. -/
def contribute_full {Pub Priv Rng : Type} (env : WasmEnv Pub Priv Rng)
    (curve_kind proving_system_str : String) (batch_size power : Nat)
    (challenge : List Nat) : Option (Except String ContributionResponse) :=
  let rng := env.get_rng env.user_system_randomness
  match env.proving_system_from_str proving_system_str with
  | none => none
  | some proving_system =>
    match env.curve_from_str curve_kind with
    | none => none
    | some ck =>
      some (contribute_challenge (env.engine ck) challenge
        (get_parameters_full env ck proving_system power batch_size) rng)

/-- The entry point `Phase1WASM::contribute_chunked`.  The `oneshot`
capacity-one rendezvous
(`tx.send` / `rx.recv().unwrap()`) around the single dispatched work unit is
modelled as direct delivery of that unit's value; `none` models the aborts of
`ThreadPoolBuilder::build().unwrap()`, `worker.run(..).unwrap()` (collapsed
into `pool_build`) and the selector `expect`s. -/
def contribute_chunked {Pub Priv Rng : Type} (env : WasmEnv Pub Priv Rng)
    (curve_kind proving_system_str : String)
    (batch_size power chunk_index chunk_size : Nat)
    (seed : List Nat) (challenge : List Nat) (thread_pool_size : Nat) :
    Option (Except String ContributionResponse) :=
  match env.pool_build thread_pool_size with
  | none => none
  | some _ =>
    let rng := env.derive_rng_from_seed seed
    match env.proving_system_from_str proving_system_str with
    | none => none
    | some proving_system =>
      match env.curve_from_str curve_kind with
      | none => none
      | some ck =>
        some (contribute_challenge (env.engine ck) challenge
          (get_parameters_chunked env ck proving_system power batch_size
            chunk_index chunk_size) rng)

/-! ### Concrete stub instances used by the witnesses -/

/-- A stub engine whose hash is `[length + 1, 3]`, whose key generation always
succeeds, and whose transformation and serialization return the buffer. -/
def stubEngine : Engine Unit Unit Unit where
  calculate_hash := fun b => [b.length + 1, 3]
  key_generation := fun _ _ => Except.ok ((), ())
  computation := fun _ resp _ _ _ _ _ => Except.ok resp
  write := fun _ buf _ _ => Except.ok buf

/-- Stub parameters: accumulator 3 bytes, contribution 5 bytes, key 2 bytes. -/
def stubParams : Phase1Parameters :=
  { accumulator_size := 3, contribution_size := 5, public_key_size := 2 }

/-- Stub engine whose key generation fails. -/
def keygenFailEngine : Engine Unit Unit Unit :=
  { stubEngine with key_generation := fun _ _ => Except.error "kg" }

/-- A second key-generation-failing stub engine with a different payload. -/
def keygenFailEngineB : Engine Unit Unit Unit :=
  { stubEngine with key_generation := fun _ _ => Except.error "kg2" }

/-- Stub engine whose transformation fails. -/
def compFailEngine : Engine Unit Unit Unit :=
  { stubEngine with computation := fun _ _ _ _ _ _ _ => Except.error "comp" }

/-- A transformation-failing stub engine over numeric private keys: the
generated private key is `17` and the engine error payload is `comp`. -/
def compFailEngineA : Engine Unit Nat Unit where
  calculate_hash := fun b => [b.length + 1, 3]
  key_generation := fun _ _ => Except.ok ((), 17)
  computation := fun _ _ _ _ _ _ _ => Except.error "comp"
  write := fun _ buf _ _ => Except.ok buf

/-- Like `compFailEngineA` but generating private key `99` and failing with a
different engine error payload. -/
def compFailEngineB : Engine Unit Nat Unit where
  calculate_hash := fun b => [b.length + 1, 3]
  key_generation := fun _ _ => Except.ok ((), 99)
  computation := fun _ _ _ _ _ _ _ => Except.error "other"
  write := fun _ buf _ _ => Except.ok buf

/-- Stub engine whose public-key serialization fails. -/
def writeFailEngine : Engine Unit Unit Unit :=
  { stubEngine with write := fun _ _ _ _ => Except.error "boom" }

/-- A stub environment: closed selector tables, trivial RNGs, constant
parameter deriver, and a pool that fails to build exactly for zero lanes. -/
def stubEnv : WasmEnv Unit Unit Unit where
  curve_from_str := fun s =>
    if s = "bls12_377" then some CurveKind.Bls12_377
    else if s = "bw6" then some CurveKind.BW6
    else none
  proving_system_from_str := fun s =>
    if s = "groth16" then some ProvingSystem.Groth16
    else if s = "marlin" then some ProvingSystem.Marlin
    else none
  get_rng := fun _ => ()
  user_system_randomness := []
  derive_rng_from_seed := fun _ => ()
  new_full := fun _ _ _ _ => stubParams
  new_chunk := fun _ _ _ _ _ _ _ => stubParams
  engine := fun _ => stubEngine
  pool_build := fun n => if n = 0 then none else some ()

/-! ### Helper lemmas about the pre-fill loop -/

theorem prefill_succ (hash : List Nat) (n : Nat) :
    prefill hash (n + 1) = prefill hash n ++ [hash.getD (n % hash.length) 0] := by
  unfold prefill
  rw [List.range_succ, List.foldl_append, List.foldl_cons, List.foldl_nil]

theorem prefill_eq_map (hash : List Nat) (n : Nat) :
    prefill hash n = (List.range n).map (fun i => hash.getD (i % hash.length) 0) := by
  induction n with
  | zero => rfl
  | succ n ih =>
    rw [prefill_succ, ih, List.range_succ, List.map_append, List.map_singleton]

theorem prefill_length (hash : List Nat) (n : Nat) :
    (prefill hash n).length = n := by
  rw [prefill_eq_map, List.length_map, List.length_range]

theorem prefill_getD (hash : List Nat) (n : Nat) (i : Nat) (hi : i < n) :
    (prefill hash n).getD i 0 = hash.getD (i % hash.length) 0 := by
  rw [prefill_eq_map, List.getD_eq_getElem?_getD, List.getElem?_map,
    List.getElem?_range hi]
  rfl

/-! ### Step-by-step characterization of the orchestration -/

theorem contribute_challenge_length_ne {Pub Priv Rng : Type}
    (eng : Engine Pub Priv Rng) (challenge : List Nat)
    (parameters : Phase1Parameters) (rng : Rng)
    (h : challenge.length ≠ expected_challenge_length parameters) :
    contribute_challenge eng challenge parameters rng =
      Except.error
        (sizeMismatchError (expected_challenge_length parameters) challenge.length) := by
  unfold contribute_challenge
  rw [if_pos h]

theorem contribute_challenge_length_eq {Pub Priv Rng : Type}
    (eng : Engine Pub Priv Rng) (challenge : List Nat)
    (parameters : Phase1Parameters) (rng : Rng)
    (h : challenge.length = expected_challenge_length parameters) :
    contribute_challenge eng challenge parameters rng =
      run_transformation eng challenge (eng.calculate_hash challenge)
        (prefill (eng.calculate_hash challenge) (required_output_length parameters))
        parameters rng := by
  unfold contribute_challenge
  rw [if_neg (not_not_intro h)]

theorem run_transformation_keygen_error {Pub Priv Rng : Type}
    (eng : Engine Pub Priv Rng) (challenge hash buf : List Nat)
    (parameters : Phase1Parameters) (rng : Rng) (e : String)
    (hk : eng.key_generation rng hash = Except.error e) :
    run_transformation eng challenge hash buf parameters rng =
      Except.error "could not generate keypair" := by
  unfold run_transformation
  simp only [hk]

theorem run_transformation_computation_error {Pub Priv Rng : Type}
    (eng : Engine Pub Priv Rng) (challenge hash buf : List Nat)
    (parameters : Phase1Parameters) (rng : Rng) (pub : Pub) (priv : Priv)
    (e : String)
    (hk : eng.key_generation rng hash = Except.ok (pub, priv))
    (hc : eng.computation challenge buf COMPRESSED_INPUT COMPRESSED_OUTPUT
        CHECK_INPUT_CORRECTNESS priv parameters = Except.error e) :
    run_transformation eng challenge hash buf parameters rng =
      Except.error "must contribute with the key" := by
  unfold run_transformation
  simp only [hk, hc]

theorem run_transformation_write_error {Pub Priv Rng : Type}
    (eng : Engine Pub Priv Rng) (challenge hash buf : List Nat)
    (parameters : Phase1Parameters) (rng : Rng) (pub : Pub) (priv : Priv)
    (out : List Nat) (e : String)
    (hk : eng.key_generation rng hash = Except.ok (pub, priv))
    (hc : eng.computation challenge buf COMPRESSED_INPUT COMPRESSED_OUTPUT
        CHECK_INPUT_CORRECTNESS priv parameters = Except.ok out)
    (hw : eng.write pub out COMPRESSED_OUTPUT parameters = Except.error e) :
    run_transformation eng challenge hash buf parameters rng = Except.error e := by
  unfold run_transformation
  simp only [hk, hc, hw]

theorem run_transformation_ok {Pub Priv Rng : Type}
    (eng : Engine Pub Priv Rng) (challenge hash buf : List Nat)
    (parameters : Phase1Parameters) (rng : Rng) (pub : Pub) (priv : Priv)
    (out out2 : List Nat)
    (hk : eng.key_generation rng hash = Except.ok (pub, priv))
    (hc : eng.computation challenge buf COMPRESSED_INPUT COMPRESSED_OUTPUT
        CHECK_INPUT_CORRECTNESS priv parameters = Except.ok out)
    (hw : eng.write pub out COMPRESSED_OUTPUT parameters = Except.ok out2) :
    run_transformation eng challenge hash buf parameters rng =
      Except.ok
        { current_accumulator_hash := hash
          response := out2
          contribution_hash := eng.calculate_hash out2 } := by
  unfold run_transformation
  simp only [hk, hc, hw]

theorem run_transformation_ok_inv {Pub Priv Rng : Type}
    (eng : Engine Pub Priv Rng) (challenge hash buf : List Nat)
    (parameters : Phase1Parameters) (rng : Rng) (r : ContributionResponse)
    (h : run_transformation eng challenge hash buf parameters rng = Except.ok r) :
    ∃ pub priv out out2,
      eng.key_generation rng hash = Except.ok (pub, priv) ∧
      eng.computation challenge buf COMPRESSED_INPUT COMPRESSED_OUTPUT
        CHECK_INPUT_CORRECTNESS priv parameters = Except.ok out ∧
      eng.write pub out COMPRESSED_OUTPUT parameters = Except.ok out2 ∧
      r = { current_accumulator_hash := hash
            response := out2
            contribution_hash := eng.calculate_hash out2 } := by
  unfold run_transformation at h
  cases hk : eng.key_generation rng hash with
  | error e => simp only [hk] at h; exact Except.noConfusion h
  | ok pair =>
    obtain ⟨pub, priv⟩ := pair
    simp only [hk] at h
    cases hc : eng.computation challenge buf COMPRESSED_INPUT COMPRESSED_OUTPUT
        CHECK_INPUT_CORRECTNESS priv parameters with
    | error e => simp only [hc] at h; exact Except.noConfusion h
    | ok out =>
      simp only [hc] at h
      cases hw : eng.write pub out COMPRESSED_OUTPUT parameters with
      | error e => simp only [hw] at h; exact Except.noConfusion h
      | ok out2 =>
        simp only [hw] at h
        exact ⟨pub, priv, out, out2, rfl, hc, hw, (Except.ok.inj h).symm⟩

/-- An inversion for the size check: any call producing a value other than
the size-mismatch error has a challenge of exactly the expected length. -/
theorem contribute_challenge_ok_length {Pub Priv Rng : Type}
    (eng : Engine Pub Priv Rng) (challenge : List Nat)
    (parameters : Phase1Parameters) (rng : Rng) (r : ContributionResponse)
    (h : contribute_challenge eng challenge parameters rng = Except.ok r) :
    challenge.length = expected_challenge_length parameters := by
  by_contra hne
  rw [contribute_challenge_length_ne eng challenge parameters rng hne] at h
  exact Except.noConfusion h

/-! ### Claim theorems -/

/-- C1.  Hash-chain invariant: every call that passes the length check
computes `current_accumulator_hash = Hash(challenge)` before the
transformation (it is the digest handed to the transformation stage and, on
success, the digest returned), and every successful call returns
`contribution_hash = Hash(response)` computed over the final response
bytes. -/
theorem contribute_challenge_hash_chain {Pub Priv Rng : Type}
    (eng : Engine Pub Priv Rng) (challenge : List Nat)
    (parameters : Phase1Parameters) (rng : Rng) (r : ContributionResponse)
    (h : contribute_challenge eng challenge parameters rng = Except.ok r) :
    r.current_accumulator_hash = eng.calculate_hash challenge ∧
    r.contribution_hash = eng.calculate_hash r.response := by
  have hlen : challenge.length = expected_challenge_length parameters :=
    contribute_challenge_ok_length eng challenge parameters rng r h
  rw [contribute_challenge_length_eq eng challenge parameters rng hlen] at h
  obtain ⟨pub, priv, out, out2, hk, hc, hw, hr⟩ :=
    run_transformation_ok_inv eng challenge (eng.calculate_hash challenge)
      (prefill (eng.calculate_hash challenge) (required_output_length parameters))
      parameters rng r h
  subst hr
  exact ⟨rfl, rfl⟩

/-- Witness for C1 at the stub engine and parameters. -/
theorem contribute_challenge_hash_chain_witness :
    ({ current_accumulator_hash := [4, 3], response := [4, 3, 4, 3, 4],
       contribution_hash := [6, 3] } : ContributionResponse).current_accumulator_hash
        = stubEngine.calculate_hash [10, 11, 12] ∧
    ({ current_accumulator_hash := [4, 3], response := [4, 3, 4, 3, 4],
       contribution_hash := [6, 3] } : ContributionResponse).contribution_hash
        = stubEngine.calculate_hash
            ({ current_accumulator_hash := [4, 3], response := [4, 3, 4, 3, 4],
               contribution_hash := [6, 3] } : ContributionResponse).response :=
  contribute_challenge_hash_chain stubEngine [10, 11, 12] stubParams ()
    { current_accumulator_hash := [4, 3], response := [4, 3, 4, 3, 4],
      contribution_hash := [6, 3] } (by rfl)

/-- C2.  Pre-fill property: when the length check passes, the buffer handed
to the transformation stage is exactly the cyclic pre-fill of the digest; it
has length `required_output_length` and its `i`-th byte is
`hash[i % hash.length]` for every `i < required_output_length`. -/
theorem contribute_challenge_prefill {Pub Priv Rng : Type}
    (eng : Engine Pub Priv Rng) (challenge : List Nat)
    (parameters : Phase1Parameters) (rng : Rng)
    (hlen : challenge.length = expected_challenge_length parameters)
    (hpos : 0 < (eng.calculate_hash challenge).length) :
    contribute_challenge eng challenge parameters rng =
      run_transformation eng challenge (eng.calculate_hash challenge)
        (prefill (eng.calculate_hash challenge) (required_output_length parameters))
        parameters rng ∧
    (prefill (eng.calculate_hash challenge)
        (required_output_length parameters)).length
      = required_output_length parameters ∧
    ∀ i, i < required_output_length parameters →
      (prefill (eng.calculate_hash challenge)
          (required_output_length parameters)).getD i 0
        = (eng.calculate_hash challenge).getD
            (i % (eng.calculate_hash challenge).length) 0 := by
  exact ⟨contribute_challenge_length_eq eng challenge parameters rng hlen,
    prefill_length _ _, fun i hi => prefill_getD _ _ i hi⟩

/-- Witness for C2 at the stub engine and parameters. -/
theorem contribute_challenge_prefill_witness :
    contribute_challenge stubEngine [10, 11, 12] stubParams () =
      run_transformation stubEngine [10, 11, 12]
        (stubEngine.calculate_hash [10, 11, 12])
        (prefill (stubEngine.calculate_hash [10, 11, 12])
          (required_output_length stubParams)) stubParams () ∧
    (prefill (stubEngine.calculate_hash [10, 11, 12])
        (required_output_length stubParams)).length
      = required_output_length stubParams ∧
    ∀ i, i < required_output_length stubParams →
      (prefill (stubEngine.calculate_hash [10, 11, 12])
          (required_output_length stubParams)).getD i 0
        = (stubEngine.calculate_hash [10, 11, 12]).getD
            (i % (stubEngine.calculate_hash [10, 11, 12]).length) 0 :=
  contribute_challenge_prefill stubEngine [10, 11, 12] stubParams ()
    (by decide) (by decide)

/-- C3.  Size boundary: under the fixed uncompressed-input policy the
expected challenge length is `accumulator_size`; any other length is rejected
with the size-mismatch error naming the expected and actual lengths — the
result is that error for every engine, so no hashing, key generation or
transformation is performed — and a challenge of exactly the expected length
passes the check and proceeds to the transformation stage. -/
theorem contribute_challenge_size_boundary {Pub Priv Rng : Type} :
    (∀ parameters : Phase1Parameters,
        expected_challenge_length parameters = parameters.accumulator_size) ∧
    (∀ (eng : Engine Pub Priv Rng) (challenge : List Nat)
        (parameters : Phase1Parameters) (rng : Rng),
        challenge.length ≠ expected_challenge_length parameters →
        contribute_challenge eng challenge parameters rng =
          Except.error (sizeMismatchError (expected_challenge_length parameters)
            challenge.length)) ∧
    (∀ (eng : Engine Pub Priv Rng) (challenge : List Nat)
        (parameters : Phase1Parameters) (rng : Rng),
        challenge.length = expected_challenge_length parameters →
        contribute_challenge eng challenge parameters rng =
          run_transformation eng challenge (eng.calculate_hash challenge)
            (prefill (eng.calculate_hash challenge)
              (required_output_length parameters)) parameters rng) :=
  ⟨fun _ => rfl,
   fun eng challenge parameters rng h =>
     contribute_challenge_length_ne eng challenge parameters rng h,
   fun eng challenge parameters rng h =>
     contribute_challenge_length_eq eng challenge parameters rng h⟩

/-- Witness for C3: expected length 3; lengths 4 and 2 are rejected with the
error naming both lengths; length 3 proceeds. -/
theorem contribute_challenge_size_boundary_witness :
    expected_challenge_length stubParams = stubParams.accumulator_size ∧
    contribute_challenge stubEngine [0, 0, 0, 0] stubParams () =
      Except.error (sizeMismatchError 3 4) ∧
    contribute_challenge stubEngine [0, 0] stubParams () =
      Except.error (sizeMismatchError 3 2) ∧
    contribute_challenge stubEngine [10, 11, 12] stubParams () =
      run_transformation stubEngine [10, 11, 12]
        (stubEngine.calculate_hash [10, 11, 12])
        (prefill (stubEngine.calculate_hash [10, 11, 12])
          (required_output_length stubParams)) stubParams () :=
  ⟨(@contribute_challenge_size_boundary Unit Unit Unit).1 stubParams,
   (contribute_challenge_size_boundary.2.1 stubEngine [0, 0, 0, 0] stubParams ()
      (by decide)),
   (contribute_challenge_size_boundary.2.1 stubEngine [0, 0] stubParams ()
      (by decide)),
   (contribute_challenge_size_boundary.2.2 stubEngine [10, 11, 12] stubParams ()
      (by decide))⟩

/-- C4.  Response length: under the fixed compressed-output policy the
required output length is `contribution_size`, and — given that the external
transformation and public-key serialization preserve the buffer length, as
the spec states (in-place mutation, key embedded within the compressed
length) — every successful call returns a response of exactly that length. -/
theorem contribute_challenge_response_length {Pub Priv Rng : Type}
    (eng : Engine Pub Priv Rng) (challenge : List Nat)
    (parameters : Phase1Parameters) (rng : Rng) (r : ContributionResponse)
    (hcomp : ∀ ch buf ci co chk priv p out,
        eng.computation ch buf ci co chk priv p = Except.ok out →
        out.length = buf.length)
    (hwrite : ∀ pub buf co p out,
        eng.write pub buf co p = Except.ok out → out.length = buf.length)
    (h : contribute_challenge eng challenge parameters rng = Except.ok r) :
    required_output_length parameters = parameters.contribution_size ∧
    r.response.length = required_output_length parameters := by
  refine ⟨rfl, ?_⟩
  have hlen : challenge.length = expected_challenge_length parameters :=
    contribute_challenge_ok_length eng challenge parameters rng r h
  rw [contribute_challenge_length_eq eng challenge parameters rng hlen] at h
  obtain ⟨pub, priv, out, out2, hk, hc, hw, hr⟩ :=
    run_transformation_ok_inv eng challenge (eng.calculate_hash challenge)
      (prefill (eng.calculate_hash challenge) (required_output_length parameters))
      parameters rng r h
  subst hr
  calc out2.length
      = out.length := hwrite pub out COMPRESSED_OUTPUT parameters out2 hw
    _ = (prefill (eng.calculate_hash challenge)
          (required_output_length parameters)).length :=
        hcomp challenge _ COMPRESSED_INPUT COMPRESSED_OUTPUT
          CHECK_INPUT_CORRECTNESS priv parameters out hc
    _ = required_output_length parameters := prefill_length _ _

/-- Witness for C4 at the stub engine, whose transformation and serialization
return the buffer unchanged. -/
theorem contribute_challenge_response_length_witness :
    required_output_length stubParams = stubParams.contribution_size ∧
    ({ current_accumulator_hash := [4, 3], response := [4, 3, 4, 3, 4],
       contribution_hash := [6, 3] } : ContributionResponse).response.length
      = required_output_length stubParams :=
  contribute_challenge_response_length stubEngine [10, 11, 12] stubParams ()
    { current_accumulator_hash := [4, 3], response := [4, 3, 4, 3, 4],
      contribution_hash := [6, 3] }
    (fun _ _ _ _ _ _ _ _ h => by cases h; rfl)
    (fun _ _ _ _ _ h => by cases h; rfl)
    (by rfl)

/-- C5.  Determinism: with all inputs fixed (the model's engine functions and
RNG values are deterministic), two calls to `contribute_challenge` yield
byte-identical `response`, `current_accumulator_hash` and `contribution_hash`;
and `contribute_chunked`, whose RNG is derived from the seed by
`derive_rng_from_seed`, is reproducible given identical seeds and identical
other inputs. -/
theorem contribute_challenge_deterministic {Pub Priv Rng : Type} :
    (∀ (eng : Engine Pub Priv Rng) (challenge : List Nat)
        (parameters : Phase1Parameters) (rng : Rng)
        (r1 r2 : ContributionResponse),
        contribute_challenge eng challenge parameters rng = Except.ok r1 →
        contribute_challenge eng challenge parameters rng = Except.ok r2 →
        r1.response = r2.response ∧
        r1.current_accumulator_hash = r2.current_accumulator_hash ∧
        r1.contribution_hash = r2.contribution_hash) ∧
    (∀ (env : WasmEnv Pub Priv Rng) (ckind psys : String)
        (batch_size power chunk_index chunk_size : Nat)
        (seed1 seed2 challenge : List Nat) (thread_pool_size : Nat),
        seed1 = seed2 →
        contribute_chunked env ckind psys batch_size power chunk_index
          chunk_size seed1 challenge thread_pool_size =
        contribute_chunked env ckind psys batch_size power chunk_index
          chunk_size seed2 challenge thread_pool_size) := by
  constructor
  · intro eng challenge parameters rng r1 r2 h1 h2
    rw [h1] at h2
    cases Except.ok.inj h2
    exact ⟨rfl, rfl, rfl⟩
  · intro env ckind psys batch_size power chunk_index chunk_size
      seed1 seed2 challenge thread_pool_size hseed
    rw [hseed]

/-- Witness for C5: two identical stub calls agree field by field, and two
chunked stub calls with equal seeds agree. -/
theorem contribute_challenge_deterministic_witness :
    (({ current_accumulator_hash := [4, 3], response := [4, 3, 4, 3, 4],
        contribution_hash := [6, 3] } : ContributionResponse).response
        = ({ current_accumulator_hash := [4, 3], response := [4, 3, 4, 3, 4],
             contribution_hash := [6, 3] } : ContributionResponse).response ∧
     ({ current_accumulator_hash := [4, 3], response := [4, 3, 4, 3, 4],
        contribution_hash := [6, 3] } : ContributionResponse).current_accumulator_hash
        = ({ current_accumulator_hash := [4, 3], response := [4, 3, 4, 3, 4],
             contribution_hash := [6, 3] } : ContributionResponse).current_accumulator_hash ∧
     ({ current_accumulator_hash := [4, 3], response := [4, 3, 4, 3, 4],
        contribution_hash := [6, 3] } : ContributionResponse).contribution_hash
        = ({ current_accumulator_hash := [4, 3], response := [4, 3, 4, 3, 4],
             contribution_hash := [6, 3] } : ContributionResponse).contribution_hash) ∧
    contribute_chunked stubEnv "bls12_377" "groth16" 1 2 0 4 [9] [10, 11, 12] 2 =
      contribute_chunked stubEnv "bls12_377" "groth16" 1 2 0 4 [9] [10, 11, 12] 2 :=
  ⟨contribute_challenge_deterministic.1 stubEngine [10, 11, 12] stubParams ()
      { current_accumulator_hash := [4, 3], response := [4, 3, 4, 3, 4],
        contribution_hash := [6, 3] }
      { current_accumulator_hash := [4, 3], response := [4, 3, 4, 3, 4],
        contribution_hash := [6, 3] } (by rfl) (by rfl),
   contribute_challenge_deterministic.2 stubEnv "bls12_377" "groth16" 1 2 0 4
      [9] [9] [10, 11, 12] 2 (by rfl)⟩

/-- C6.  Failure atomicity: a failed size check, key generation,
transformation or public-key serialization each aborts the call with its
corresponding error value — and an error result excludes any
`ContributionResponse` being produced. -/
theorem contribute_challenge_failure_atomicity {Pub Priv Rng : Type} :
    (∀ (eng : Engine Pub Priv Rng) (challenge : List Nat)
        (parameters : Phase1Parameters) (rng : Rng),
        challenge.length ≠ expected_challenge_length parameters →
        contribute_challenge eng challenge parameters rng =
          Except.error (sizeMismatchError (expected_challenge_length parameters)
            challenge.length)) ∧
    (∀ (eng : Engine Pub Priv Rng) (challenge : List Nat)
        (parameters : Phase1Parameters) (rng : Rng) (e : String),
        challenge.length = expected_challenge_length parameters →
        eng.key_generation rng (eng.calculate_hash challenge) = Except.error e →
        contribute_challenge eng challenge parameters rng =
          Except.error "could not generate keypair") ∧
    (∀ (eng : Engine Pub Priv Rng) (challenge : List Nat)
        (parameters : Phase1Parameters) (rng : Rng) (pub : Pub) (priv : Priv)
        (e : String),
        challenge.length = expected_challenge_length parameters →
        eng.key_generation rng (eng.calculate_hash challenge) =
          Except.ok (pub, priv) →
        eng.computation challenge
          (prefill (eng.calculate_hash challenge)
            (required_output_length parameters))
          COMPRESSED_INPUT COMPRESSED_OUTPUT CHECK_INPUT_CORRECTNESS priv
          parameters = Except.error e →
        contribute_challenge eng challenge parameters rng =
          Except.error "must contribute with the key") ∧
    (∀ (eng : Engine Pub Priv Rng) (challenge : List Nat)
        (parameters : Phase1Parameters) (rng : Rng) (pub : Pub) (priv : Priv)
        (out : List Nat) (e : String),
        challenge.length = expected_challenge_length parameters →
        eng.key_generation rng (eng.calculate_hash challenge) =
          Except.ok (pub, priv) →
        eng.computation challenge
          (prefill (eng.calculate_hash challenge)
            (required_output_length parameters))
          COMPRESSED_INPUT COMPRESSED_OUTPUT CHECK_INPUT_CORRECTNESS priv
          parameters = Except.ok out →
        eng.write pub out COMPRESSED_OUTPUT parameters = Except.error e →
        contribute_challenge eng challenge parameters rng = Except.error e) ∧
    (∀ (eng : Engine Pub Priv Rng) (challenge : List Nat)
        (parameters : Phase1Parameters) (rng : Rng) (e : String)
        (r : ContributionResponse),
        contribute_challenge eng challenge parameters rng = Except.error e →
        contribute_challenge eng challenge parameters rng ≠ Except.ok r) := by
  refine ⟨?_, ?_, ?_, ?_, ?_⟩
  · intro eng challenge parameters rng h
    exact contribute_challenge_length_ne eng challenge parameters rng h
  · intro eng challenge parameters rng e hlen hk
    rw [contribute_challenge_length_eq eng challenge parameters rng hlen]
    exact run_transformation_keygen_error eng challenge _ _ parameters rng e hk
  · intro eng challenge parameters rng pub priv e hlen hk hc
    rw [contribute_challenge_length_eq eng challenge parameters rng hlen]
    exact run_transformation_computation_error eng challenge _ _ parameters rng
      pub priv e hk hc
  · intro eng challenge parameters rng pub priv out e hlen hk hc hw
    rw [contribute_challenge_length_eq eng challenge parameters rng hlen]
    exact run_transformation_write_error eng challenge _ _ parameters rng
      pub priv out e hk hc hw
  · intro eng challenge parameters rng e r herr hok
    rw [herr] at hok
    exact Except.noConfusion hok

/-- Witness for C6: the four failure stubs produce exactly the corresponding
errors, and the size-mismatch error excludes a success value. -/
theorem contribute_challenge_failure_atomicity_witness :
    contribute_challenge stubEngine [0, 0, 0, 0] stubParams () =
      Except.error (sizeMismatchError 3 4) ∧
    contribute_challenge keygenFailEngine [10, 11, 12] stubParams () =
      Except.error "could not generate keypair" ∧
    contribute_challenge compFailEngine [10, 11, 12] stubParams () =
      Except.error "must contribute with the key" ∧
    contribute_challenge writeFailEngine [10, 11, 12] stubParams () =
      Except.error "boom" ∧
    contribute_challenge stubEngine [0, 0, 0, 0] stubParams () ≠
      Except.ok { current_accumulator_hash := [], response := [],
                  contribution_hash := [] } :=
  ⟨contribute_challenge_failure_atomicity.1 stubEngine [0, 0, 0, 0] stubParams ()
      (by decide),
   contribute_challenge_failure_atomicity.2.1 keygenFailEngine [10, 11, 12]
      stubParams () "kg" (by decide) (by rfl),
   contribute_challenge_failure_atomicity.2.2.1 compFailEngine [10, 11, 12]
      stubParams () () () "comp" (by decide) (by rfl) (by rfl),
   contribute_challenge_failure_atomicity.2.2.2.1 writeFailEngine [10, 11, 12]
      stubParams () () () [4, 3, 4, 3, 4] "boom" (by decide) (by rfl) (by rfl)
      (by rfl),
   contribute_challenge_failure_atomicity.2.2.2.2 stubEngine [0, 0, 0, 0]
      stubParams () (sizeMismatchError 3 4)
      { current_accumulator_hash := [], response := [], contribution_hash := [] }
      (by rfl)⟩

/-- C7.  Selector and pool failures abort rather than err: an unresolvable
curve or proving-system token, or a failed worker-pool construction, makes
`contribute_full` / `contribute_chunked` abort (`none`, the model of the
`expect`/`unwrap` crash) — in particular they never return an `Err` value of
their `Result` type on those inputs. -/
theorem selector_pool_failures_abort {Pub Priv Rng : Type} :
    (∀ (env : WasmEnv Pub Priv Rng) (c s : String) (bs pw : Nat)
        (ch : List Nat),
        env.proving_system_from_str s = none →
        contribute_full env c s bs pw ch = none) ∧
    (∀ (env : WasmEnv Pub Priv Rng) (c s : String) (bs pw : Nat)
        (ch : List Nat),
        env.curve_from_str c = none →
        contribute_full env c s bs pw ch = none) ∧
    (∀ (env : WasmEnv Pub Priv Rng) (c s : String) (bs pw ci cs : Nat)
        (seed ch : List Nat) (tps : Nat),
        env.pool_build tps = none →
        contribute_chunked env c s bs pw ci cs seed ch tps = none) ∧
    (∀ (env : WasmEnv Pub Priv Rng) (c s : String) (bs pw ci cs : Nat)
        (seed ch : List Nat) (tps : Nat),
        env.proving_system_from_str s = none →
        contribute_chunked env c s bs pw ci cs seed ch tps = none) ∧
    (∀ (env : WasmEnv Pub Priv Rng) (c s : String) (bs pw ci cs : Nat)
        (seed ch : List Nat) (tps : Nat),
        env.curve_from_str c = none →
        contribute_chunked env c s bs pw ci cs seed ch tps = none) ∧
    (∀ (env : WasmEnv Pub Priv Rng) (c s : String) (bs pw : Nat)
        (ch : List Nat) (e : String),
        env.proving_system_from_str s = none ∨ env.curve_from_str c = none →
        contribute_full env c s bs pw ch ≠ some (Except.error e)) ∧
    (∀ (env : WasmEnv Pub Priv Rng) (c s : String) (bs pw ci cs : Nat)
        (seed ch : List Nat) (tps : Nat) (e : String),
        env.pool_build tps = none ∨ env.proving_system_from_str s = none ∨
          env.curve_from_str c = none →
        contribute_chunked env c s bs pw ci cs seed ch tps ≠
          some (Except.error e)) := by
  have hfull_ps : ∀ (env : WasmEnv Pub Priv Rng) (c s : String) (bs pw : Nat)
      (ch : List Nat), env.proving_system_from_str s = none →
      contribute_full env c s bs pw ch = none := by
    intro env c s bs pw ch h
    unfold contribute_full
    simp only [h]
  have hfull_ck : ∀ (env : WasmEnv Pub Priv Rng) (c s : String) (bs pw : Nat)
      (ch : List Nat), env.curve_from_str c = none →
      contribute_full env c s bs pw ch = none := by
    intro env c s bs pw ch h
    unfold contribute_full
    cases env.proving_system_from_str s with
    | none => rfl
    | some ps => simp only [h]
  have hch_pool : ∀ (env : WasmEnv Pub Priv Rng) (c s : String)
      (bs pw ci cs : Nat) (seed ch : List Nat) (tps : Nat),
      env.pool_build tps = none →
      contribute_chunked env c s bs pw ci cs seed ch tps = none := by
    intro env c s bs pw ci cs seed ch tps h
    unfold contribute_chunked
    simp only [h]
  have hch_ps : ∀ (env : WasmEnv Pub Priv Rng) (c s : String)
      (bs pw ci cs : Nat) (seed ch : List Nat) (tps : Nat),
      env.proving_system_from_str s = none →
      contribute_chunked env c s bs pw ci cs seed ch tps = none := by
    intro env c s bs pw ci cs seed ch tps h
    unfold contribute_chunked
    cases env.pool_build tps with
    | none => rfl
    | some u => simp only [h]
  have hch_ck : ∀ (env : WasmEnv Pub Priv Rng) (c s : String)
      (bs pw ci cs : Nat) (seed ch : List Nat) (tps : Nat),
      env.curve_from_str c = none →
      contribute_chunked env c s bs pw ci cs seed ch tps = none := by
    intro env c s bs pw ci cs seed ch tps h
    unfold contribute_chunked
    cases env.pool_build tps with
    | none => rfl
    | some u =>
      cases env.proving_system_from_str s with
      | none => rfl
      | some ps => simp only [h]
  refine ⟨hfull_ps, hfull_ck, hch_pool, hch_ps, hch_ck, ?_, ?_⟩
  · intro env c s bs pw ch e h
    cases h with
    | inl h => rw [hfull_ps env c s bs pw ch h]; exact Option.noConfusion
    | inr h => rw [hfull_ck env c s bs pw ch h]; exact Option.noConfusion
  · intro env c s bs pw ci cs seed ch tps e h
    rcases h with h | h | h
    · rw [hch_pool env c s bs pw ci cs seed ch tps h]
      exact Option.noConfusion
    · rw [hch_ps env c s bs pw ci cs seed ch tps h]
      exact Option.noConfusion
    · rw [hch_ck env c s bs pw ci cs seed ch tps h]
      exact Option.noConfusion

/-- Witness for C7 at the stub environment: unknown tokens and a
zero-lane pool each abort. -/
theorem selector_pool_failures_abort_witness :
    contribute_full stubEnv "bls12_377" "nope" 1 2 [10, 11, 12] = none ∧
    contribute_full stubEnv "nope" "groth16" 1 2 [10, 11, 12] = none ∧
    contribute_chunked stubEnv "bls12_377" "groth16" 1 2 0 4 [9] [10, 11, 12] 0
      = none ∧
    contribute_chunked stubEnv "bls12_377" "nope" 1 2 0 4 [9] [10, 11, 12] 2
      = none ∧
    contribute_chunked stubEnv "nope" "groth16" 1 2 0 4 [9] [10, 11, 12] 2
      = none ∧
    contribute_full stubEnv "nope" "groth16" 1 2 [10, 11, 12] ≠
      some (Except.error "any") ∧
    contribute_chunked stubEnv "bls12_377" "groth16" 1 2 0 4 [9] [10, 11, 12] 0
      ≠ some (Except.error "any") :=
  ⟨selector_pool_failures_abort.1 stubEnv "bls12_377" "nope" 1 2 [10, 11, 12]
      (by rfl),
   selector_pool_failures_abort.2.1 stubEnv "nope" "groth16" 1 2 [10, 11, 12]
      (by rfl),
   selector_pool_failures_abort.2.2.1 stubEnv "bls12_377" "groth16" 1 2 0 4 [9]
      [10, 11, 12] 0 (by rfl),
   selector_pool_failures_abort.2.2.2.1 stubEnv "bls12_377" "nope" 1 2 0 4 [9]
      [10, 11, 12] 2 (by rfl),
   selector_pool_failures_abort.2.2.2.2.1 stubEnv "nope" "groth16" 1 2 0 4 [9]
      [10, 11, 12] 2 (by rfl),
   selector_pool_failures_abort.2.2.2.2.2.1 stubEnv "nope" "groth16" 1 2
      [10, 11, 12] "any" (Or.inr (by rfl)),
   selector_pool_failures_abort.2.2.2.2.2.2 stubEnv "bls12_377" "groth16" 1 2
      0 4 [9] [10, 11, 12] 0 "any" (Or.inl (by rfl))⟩

/-- C8.  Private-key secrecy: the error returned on a key-generation or
transformation failure is a fixed constant — two runs that generate
different private keys (even under entirely different engines, RNGs and
error payloads) return the same error value, so no private-key-dependent
data reaches any output; the private key itself occurs in no field of the
returned value. -/
theorem private_key_error_independence {Pub Priv Rng Pub2 Priv2 Rng2 : Type} :
    (∀ (eng1 : Engine Pub Priv Rng) (eng2 : Engine Pub2 Priv2 Rng2)
        (challenge1 challenge2 : List Nat)
        (parameters1 parameters2 : Phase1Parameters) (rng1 : Rng) (rng2 : Rng2)
        (pub1 : Pub) (priv1 : Priv) (pub2 : Pub2) (priv2 : Priv2) (e1 e2 : String),
        challenge1.length = expected_challenge_length parameters1 →
        challenge2.length = expected_challenge_length parameters2 →
        eng1.key_generation rng1 (eng1.calculate_hash challenge1) =
          Except.ok (pub1, priv1) →
        eng2.key_generation rng2 (eng2.calculate_hash challenge2) =
          Except.ok (pub2, priv2) →
        eng1.computation challenge1
          (prefill (eng1.calculate_hash challenge1)
            (required_output_length parameters1))
          COMPRESSED_INPUT COMPRESSED_OUTPUT CHECK_INPUT_CORRECTNESS priv1
          parameters1 = Except.error e1 →
        eng2.computation challenge2
          (prefill (eng2.calculate_hash challenge2)
            (required_output_length parameters2))
          COMPRESSED_INPUT COMPRESSED_OUTPUT CHECK_INPUT_CORRECTNESS priv2
          parameters2 = Except.error e2 →
        contribute_challenge eng1 challenge1 parameters1 rng1 =
          contribute_challenge eng2 challenge2 parameters2 rng2 ∧
        contribute_challenge eng1 challenge1 parameters1 rng1 =
          Except.error "must contribute with the key") ∧
    (∀ (eng1 : Engine Pub Priv Rng) (eng2 : Engine Pub2 Priv2 Rng2)
        (challenge1 challenge2 : List Nat)
        (parameters1 parameters2 : Phase1Parameters) (rng1 : Rng) (rng2 : Rng2)
        (e1 e2 : String),
        challenge1.length = expected_challenge_length parameters1 →
        challenge2.length = expected_challenge_length parameters2 →
        eng1.key_generation rng1 (eng1.calculate_hash challenge1) =
          Except.error e1 →
        eng2.key_generation rng2 (eng2.calculate_hash challenge2) =
          Except.error e2 →
        contribute_challenge eng1 challenge1 parameters1 rng1 =
          contribute_challenge eng2 challenge2 parameters2 rng2 ∧
        contribute_challenge eng1 challenge1 parameters1 rng1 =
          Except.error "could not generate keypair") := by
  constructor
  · intro eng1 eng2 challenge1 challenge2 parameters1 parameters2 rng1 rng2
      pub1 priv1 pub2 priv2 e1 e2 hl1 hl2 hk1 hk2 hc1 hc2
    have h1 : contribute_challenge eng1 challenge1 parameters1 rng1 =
        Except.error "must contribute with the key" := by
      rw [contribute_challenge_length_eq eng1 challenge1 parameters1 rng1 hl1]
      exact run_transformation_computation_error eng1 challenge1 _ _ parameters1
        rng1 pub1 priv1 e1 hk1 hc1
    have h2 : contribute_challenge eng2 challenge2 parameters2 rng2 =
        Except.error "must contribute with the key" := by
      rw [contribute_challenge_length_eq eng2 challenge2 parameters2 rng2 hl2]
      exact run_transformation_computation_error eng2 challenge2 _ _ parameters2
        rng2 pub2 priv2 e2 hk2 hc2
    exact ⟨h1.trans h2.symm, h1⟩
  · intro eng1 eng2 challenge1 challenge2 parameters1 parameters2 rng1 rng2
      e1 e2 hl1 hl2 hk1 hk2
    have h1 : contribute_challenge eng1 challenge1 parameters1 rng1 =
        Except.error "could not generate keypair" := by
      rw [contribute_challenge_length_eq eng1 challenge1 parameters1 rng1 hl1]
      exact run_transformation_keygen_error eng1 challenge1 _ _ parameters1
        rng1 e1 hk1
    have h2 : contribute_challenge eng2 challenge2 parameters2 rng2 =
        Except.error "could not generate keypair" := by
      rw [contribute_challenge_length_eq eng2 challenge2 parameters2 rng2 hl2]
      exact run_transformation_keygen_error eng2 challenge2 _ _ parameters2
        rng2 e2 hk2
    exact ⟨h1.trans h2.symm, h1⟩

/-- Witness for C8: two transformation-failing runs with private keys `17`
and `99` and different engine payloads return the same constant error, and
likewise for two key-generation failures. -/
theorem private_key_error_independence_witness :
    (contribute_challenge compFailEngineA [10, 11, 12] stubParams () =
       contribute_challenge compFailEngineB [10, 11, 12] stubParams () ∧
     contribute_challenge compFailEngineA [10, 11, 12] stubParams () =
       Except.error "must contribute with the key") ∧
    (contribute_challenge keygenFailEngine [10, 11, 12] stubParams () =
       contribute_challenge keygenFailEngineB [10, 11, 12] stubParams () ∧
     contribute_challenge keygenFailEngine [10, 11, 12] stubParams () =
       Except.error "could not generate keypair") :=
  ⟨private_key_error_independence.1 compFailEngineA compFailEngineB
      [10, 11, 12] [10, 11, 12] stubParams stubParams () () () 17 () 99
      "comp" "other" (by decide) (by decide) (by rfl) (by rfl) (by rfl)
      (by rfl),
   private_key_error_independence.2 keygenFailEngine keygenFailEngineB
      [10, 11, 12] [10, 11, 12] stubParams stubParams () () "kg" "kg2"
      (by decide) (by decide) (by rfl) (by rfl)⟩

/-- C9.  Chunked bridge transparency: whenever the pool builds and both
selector tokens resolve, `contribute_chunked` returns exactly the value the
sequential `contribute_challenge` produces for the chunked-derived
parameters, the given challenge and the seed-derived RNG. -/
theorem contribute_chunked_bridge {Pub Priv Rng : Type}
    (env : WasmEnv Pub Priv Rng) (curve_kind proving_system_str : String)
    (batch_size power chunk_index chunk_size : Nat)
    (seed challenge : List Nat) (thread_pool_size : Nat)
    (ps : ProvingSystem) (ck : CurveKind)
    (hpool : env.pool_build thread_pool_size = some ())
    (hps : env.proving_system_from_str proving_system_str = some ps)
    (hck : env.curve_from_str curve_kind = some ck) :
    contribute_chunked env curve_kind proving_system_str batch_size power
        chunk_index chunk_size seed challenge thread_pool_size =
      some (contribute_challenge (env.engine ck) challenge
        (get_parameters_chunked env ck ps power batch_size chunk_index
          chunk_size)
        (env.derive_rng_from_seed seed)) := by
  unfold contribute_chunked
  simp only [hpool, hps, hck]

/-- Witness for C9 at the stub environment. -/
theorem contribute_chunked_bridge_witness :
    contribute_chunked stubEnv "bls12_377" "groth16" 1 2 0 4 [9] [10, 11, 12] 2
      = some (contribute_challenge (stubEnv.engine CurveKind.Bls12_377)
          [10, 11, 12]
          (get_parameters_chunked stubEnv CurveKind.Bls12_377
            ProvingSystem.Groth16 2 1 0 4)
          (stubEnv.derive_rng_from_seed [9])) :=
  contribute_chunked_bridge stubEnv "bls12_377" "groth16" 1 2 0 4 [9]
    [10, 11, 12] 2 ProvingSystem.Groth16 CurveKind.Bls12_377 (by rfl) (by rfl)
    (by rfl)

/-- C10.  Pre-fill totality: for a digest of nonzero length the cyclic
pre-fill loop is total and in-bounds for every output length — the buffer has
exactly the requested length, every index `i % hash.length` used by the loop
is a valid index into the digest (and the byte read is that digest element),
and output length zero yields the empty buffer. -/
theorem prefill_total_inbounds (hash : List Nat) (n : Nat)
    (hpos : 0 < hash.length) :
    (prefill hash n).length = n ∧
    (∀ i, i < n → i % hash.length < hash.length) ∧
    (∀ i, i < n →
      (prefill hash n).getD i 0 = hash.get ⟨i % hash.length, Nat.mod_lt i hpos⟩) ∧
    prefill hash 0 = [] := by
  refine ⟨prefill_length hash n, fun i _ => Nat.mod_lt i hpos, fun i hi => ?_,
    rfl⟩
  rw [prefill_getD hash n i hi, List.get_eq_getElem,
    List.getD_eq_getElem hash 0 (Nat.mod_lt i hpos)]

/-- Witness for C10 at a two-byte digest and output length four. -/
theorem prefill_total_inbounds_witness :
    (prefill [5, 6] 4).length = 4 ∧
    (∀ i, i < 4 → i % (5 :: [6]).length < (5 :: [6]).length) ∧
    (∀ i, i < 4 →
      (prefill [5, 6] 4).getD i 0 =
        (5 :: [6]).get ⟨i % (5 :: [6]).length, Nat.mod_lt i (by decide)⟩) ∧
    prefill [5, 6] 0 = [] :=
  prefill_total_inbounds [5, 6] 4 (by decide)

end Phase1Wasm
